import Mathlib

/-!
Shallow embedding of the `googlespreadsheet` Go package
(`src/googlespreadsheet.go`) and proofs about its column addressing,
range construction, data shaping, and transfer operations.

Machine integers (`int`) are modelled as `Int`; all arithmetic in the
reachable branches stays far below any overflow boundary.  The remote
spreadsheet service, the OAuth flow and the HTTP transport are modelled
as an explicit environment (`Env`); each operation returns its result,
the updated configuration and the trace of external calls it issued.
-/

/-- A scalar cell value (`interface{}` holding a scalar in the Go code). -/
inductive Value where
  | str : String → Value
  | int : Int → Value
  | bool : Bool → Value
  | null : Value
deriving DecidableEq, Repr

/-- A map-form row: `map[string]interface{}` modelled as an association list. -/
abbrev MapRow := List (String × Value)

/-- Embedding of `ColAddress` (src/googlespreadsheet.go:34-42).
Go: `if col >= 675 || col < 1 { return "" }`;
for `col <= 26` return `string(int('A') + col - 1)`;
otherwise `string(int('A')+int(col/26)-1) + string(int('A')+(col%26)-1)`.
Since both arithmetic branches run only for `1 ≤ col ≤ 674`, the Go
truncated division and remainder coincide with `Nat` division and
remainder on `col.toNat`. -/
def ColAddress (col : Int) : String :=
  if col ≥ 675 ∨ col < 1 then ""
  else if col ≤ 26 then
    String.mk [Char.ofNat (64 + col.toNat)]
  else
    String.mk [Char.ofNat (64 + col.toNat / 26), Char.ofNat (64 + col.toNat % 26)]

/-- The spec's piecewise definition of column addressing (spec §4.1):
for `col` in `[1, 26]` the single character at offset `col-1` from `'A'`;
for `col` in `[27, 674]` two characters, the first at offset
`floor(col/26)-1` from `'A'`, the second at offset `(col mod 26)-1`
from `'A'` (so offset `-1`, i.e. code 64, when `col mod 26 = 0`). -/
def ColAddressSpec (col : Int) : String :=
  if 1 ≤ col ∧ col ≤ 26 then
    String.mk [Char.ofNat (65 + (col.toNat - 1))]
  else if 27 ≤ col ∧ col ≤ 674 then
    String.mk [Char.ofNat (65 + col.toNat / 26 - 1), Char.ofNat (64 + col.toNat % 26)]
  else ""

/-- C1: for every integer col in [1, 674], ColAddress(col) equals the
spec's piecewise definition (single letter for [1,26], two letters
computed from floor(col/26)-1 and (col mod 26)-1 for [27,674]). -/
theorem colAddress_matches_spec (col : Int) (h1 : 1 ≤ col) (h2 : col ≤ 674) :
    ColAddress col = ColAddressSpec col := by
  unfold ColAddress ColAddressSpec
  rcases le_or_lt col 26 with hle | hgt
  · rw [if_neg (by omega), if_pos hle, if_pos ⟨h1, hle⟩]
    have : 65 + (col.toNat - 1) = 64 + col.toNat := by omega
    rw [this]
  · rw [if_neg (by omega), if_neg (by omega), if_neg (by omega), if_pos ⟨by omega, h2⟩]
    have hq : 26 ≤ col.toNat := by omega
    have : 65 + col.toNat / 26 - 1 = 64 + col.toNat / 26 := by
      have : 1 ≤ col.toNat / 26 := (Nat.one_le_div_iff (by omega)).mpr hq
      omega
    rw [this]

/-- Witness for C1 at col = 30. -/
theorem colAddress_matches_spec_witness :
    ColAddress 30 = ColAddressSpec 30 :=
  colAddress_matches_spec 30 (by decide) (by decide)

/-- C2: for every integer col with col < 1 or col ≥ 675, ColAddress
returns the empty string. -/
theorem colAddress_out_of_range_empty (col : Int) (h : col < 1 ∨ 675 ≤ col) :
    ColAddress col = "" := by
  unfold ColAddress
  rw [if_pos (by omega)]

/-- Witness for C2 at col = 0 and col = 675. -/
theorem colAddress_out_of_range_empty_witness :
    ColAddress 0 = "" ∧ ColAddress 675 = "" :=
  ⟨colAddress_out_of_range_empty 0 (Or.inl (by decide)),
   colAddress_out_of_range_empty 675 (Or.inr (by decide))⟩

/-- C10: for col in [27, 674] with col mod 26 = 0, ColAddress returns a
two-character string whose second character is the commercial-at sign
(code 64, one before 'A'), hence a non-empty but not all-letter address. -/
theorem colAddress_multiple_of_26_at_sign (col : Int)
    (h1 : 27 ≤ col) (h2 : col ≤ 674) (h3 : col.toNat % 26 = 0) :
    ColAddress col = String.mk [Char.ofNat (64 + col.toNat / 26), '@'] ∧
    (ColAddress col).length = 2 ∧
    ColAddress col ≠ "" ∧
    ('@'.isAlpha = false) := by
  have hcol : ColAddress col = String.mk [Char.ofNat (64 + col.toNat / 26), '@'] := by
    unfold ColAddress
    rw [if_neg (by omega), if_neg (by omega), h3]
  refine ⟨hcol, ?_, ?_, by decide⟩
  · rw [hcol]
    rfl
  · rw [hcol]
    intro hc
    have hd := congrArg String.data hc
    simp at hd

/-- Witness for C10 at col = 52 (ColAddress 52 = "B@"). -/
theorem colAddress_multiple_of_26_at_sign_witness :
    ColAddress 52 = "B@" ∧ (ColAddress 52).length = 2 := by
  have h := colAddress_multiple_of_26_at_sign 52 (by decide) (by decide) (by decide)
  exact ⟨by rw [h.1]; rfl, h.2.1⟩

/-- The range string built in `DataArrayToGoogleSpreadSheet`
(src/googlespreadsheet.go:120-123):
`destSheet + "!" + ColAddress(destCol) + itoa(destRow) + ":" +
ColAddress(destCol+nbCols) + itoa(destRow+nbRows)`. -/
def buildRange (destSheet : String) (destRow destCol : Int) (nbRows nbCols : Nat) : String :=
  destSheet ++ "!" ++
    ColAddress destCol ++ toString destRow ++
    ":" ++
    ColAddress (destCol + (nbCols : Int)) ++ toString (destRow + (nbRows : Int))

/-- The `sql.NullString.Scan` then `.String` coercion used on each cell
(src/googlespreadsheet.go:99-101): a missing key or a nil value becomes
the empty string; strings pass through; integers and booleans are
rendered as text (database/sql convertAssign to `*string`). -/
def scanNullString : Option Value → String
  | none => ""
  | some Value.null => ""
  | some (Value.str s) => s
  | some (Value.int n) => toString n
  | some (Value.bool b) => if b then "true" else "false"

/-- Lexicographic order on strings, decided through the character lists
so that it evaluates by kernel reduction. -/
def decLEString (a b : String) : Decidable (a ≤ b) :=
  decidable_of_iff (a.toList ≤ b.toList) String.le_iff_toList_le.symm

/-- Embedding of `sort.Strings` (src/googlespreadsheet.go:85):
insertion sort by the lexicographic order on strings. -/
def sortStrings (l : List String) : List String :=
  @List.insertionSort String (· ≤ ·) (fun a b => decLEString a b) l

/-- The shaped `valueData` array built by `DataMapToGoogleSpreadsheet`
(src/googlespreadsheet.go:79-103): the sorted keys of the first row as
a header row, then one row per input map holding the scanned string for
each key in sorted-key order. -/
def valueDataOf (data : List MapRow) : List (List Value) :=
  match data with
  | [] => []
  | first :: _ =>
    let keys := sortStrings (first.map Prod.fst)
    keys.map Value.str ::
      data.map (fun rowvalue =>
        keys.map (fun k => Value.str (scanNullString (rowvalue.lookup k))))

/-- The server response of an update call: only the HTTP status code is
inspected (src/googlespreadsheet.go:152). -/
structure UpdateResponse where
  HTTPStatusCode : Int
deriving DecidableEq, Repr

/-- Embedding of `Config` (src/googlespreadsheet.go:26-30): credential
bytes, spreadsheet id, and the lazily cached HTTP client (a client is
modelled as an abstract handle `Nat`). -/
structure Config where
  GoogleCredentials : List Nat
  SpreadsheetID : String
  Client : Option Nat
deriving DecidableEq, Repr

/-- One external call issued by an operation. -/
inductive Effect where
  | auth
  | update (spreadsheetID theRange valueInputOption : String) (values : List (List Value))
  | getValues (spreadsheetID theRange : String)
  | clear (spreadsheetID theRange : String)
deriving DecidableEq, Repr

/-- The external world: the OAuth JWT flow (`googleAuth`) and the three
sheets-service calls.  Each returns an error or a result. -/
structure Env where
  auth : List Nat → Except String Nat
  update : Nat → String → String → String → List (List Value) → Except String UpdateResponse
  getValues : Nat → String → String → Except String (List (List Value))
  clearValues : Nat → String → String → Except String Unit

/-- The tail of `DataArrayToGoogleSpreadSheet` after a client exists
(src/googlespreadsheet.go:138-155): issue the update call with
`USER_ENTERED` input option, propagate a transport error, and reject any
HTTP status outside [200, 299] with `Wrong http return code %d `. -/
def runUpdate (env : Env) (conf : Config) (cl : Nat) (myRange : String)
    (data : List (List Value)) : Except String Unit × Config × List Effect :=
  match env.update cl conf.SpreadsheetID myRange "USER_ENTERED" data with
  | Except.error e =>
      (Except.error e, conf, [Effect.update conf.SpreadsheetID myRange "USER_ENTERED" data])
  | Except.ok resp =>
      if resp.HTTPStatusCode < 200 ∨ 299 < resp.HTTPStatusCode then
        (Except.error ("Wrong http return code " ++ toString resp.HTTPStatusCode ++ " "),
         conf, [Effect.update conf.SpreadsheetID myRange "USER_ENTERED" data])
      else
        (Except.ok (), conf, [Effect.update conf.SpreadsheetID myRange "USER_ENTERED" data])

/-- Embedding of `DataArrayToGoogleSpreadSheet`
(src/googlespreadsheet.go:109-156): empty data or an empty first row is
a silent no-op; otherwise build the range, lazily authenticate, and run
the update call. -/
def DataArrayToGoogleSpreadSheet (env : Env) (conf : Config) (destSheet : String)
    (destRow destCol : Int) (data : List (List Value)) :
    Except String Unit × Config × List Effect :=
  if data.length = 0 then (Except.ok (), conf, [])
  else if (data.headD []).length = 0 then (Except.ok (), conf, [])
  else
    let myRange := buildRange destSheet destRow destCol data.length (data.headD []).length
    match conf.Client with
    | some cl => runUpdate env conf cl myRange data
    | none =>
        match env.auth conf.GoogleCredentials with
        | Except.error e => (Except.error e, conf, [Effect.auth])
        | Except.ok cl =>
            let r := runUpdate env { conf with Client := some cl } cl myRange data
            (r.1, r.2.1, Effect.auth :: r.2.2)

/-- Embedding of `DataMapToGoogleSpreadsheet`
(src/googlespreadsheet.go:67-106): no-op on zero rows or a keyless first
row, else shape the maps into `valueData` and delegate to
`DataArrayToGoogleSpreadSheet`. -/
def DataMapToGoogleSpreadsheet (env : Env) (conf : Config) (sheet : String)
    (row col : Int) (data : List MapRow) :
    Except String Unit × Config × List Effect :=
  if data.length = 0 then (Except.ok (), conf, [])
  else if (data.headD []).length = 0 then (Except.ok (), conf, [])
  else DataArrayToGoogleSpreadSheet env conf sheet row col (valueDataOf data)

/-- The tail of `GoogleSpreadsheetToDataArray` after a client exists
(src/googlespreadsheet.go:168-182): fetch the values of the range,
propagate errors, and treat an empty result as the `Empty template`
error. -/
def runGet (env : Env) (conf : Config) (cl : Nat) (sourceRange : String) :
    Except String (List (List Value)) × Config × List Effect :=
  match env.getValues cl conf.SpreadsheetID sourceRange with
  | Except.error e =>
      (Except.error e, conf, [Effect.getValues conf.SpreadsheetID sourceRange])
  | Except.ok vals =>
      if vals.length = 0 then
        (Except.error "Empty template", conf, [Effect.getValues conf.SpreadsheetID sourceRange])
      else
        (Except.ok vals, conf, [Effect.getValues conf.SpreadsheetID sourceRange])

/-- Embedding of `GoogleSpreadsheetToDataArray`
(src/googlespreadsheet.go:159-183). -/
def GoogleSpreadsheetToDataArray (env : Env) (conf : Config) (sourceRange : String) :
    Except String (List (List Value)) × Config × List Effect :=
  match conf.Client with
  | some cl => runGet env conf cl sourceRange
  | none =>
      match env.auth conf.GoogleCredentials with
      | Except.error e => (Except.error e, conf, [Effect.auth])
      | Except.ok cl =>
          let r := runGet env { conf with Client := some cl } cl sourceRange
          (r.1, r.2.1, Effect.auth :: r.2.2)

/-- The tail of both clear operations after a client exists
(src/googlespreadsheet.go:59-63 and 196-206): issue the clear call and
propagate its error. -/
def runClear (env : Env) (conf : Config) (cl : Nat) (theRange : String) :
    Except String Unit × Config × List Effect :=
  match env.clearValues cl conf.SpreadsheetID theRange with
  | Except.error e => (Except.error e, conf, [Effect.clear conf.SpreadsheetID theRange])
  | Except.ok _ => (Except.ok (), conf, [Effect.clear conf.SpreadsheetID theRange])

/-- Embedding of `ClearRange` (src/googlespreadsheet.go:45-64). -/
def ClearRange (env : Env) (conf : Config) (theRange : String) :
    Except String Unit × Config × List Effect :=
  match conf.Client with
  | some cl => runClear env conf cl theRange
  | none =>
      match env.auth conf.GoogleCredentials with
      | Except.error e => (Except.error e, conf, [Effect.auth])
      | Except.ok cl =>
          let r := runClear env { conf with Client := some cl } cl theRange
          (r.1, r.2.1, Effect.auth :: r.2.2)

/-- Embedding of `ClearSheet` (src/googlespreadsheet.go:186-207); its
behaviour in this model coincides with `ClearRange`, matching the two
Go variants. -/
def ClearSheet (env : Env) (conf : Config) (sourceRange : String) :
    Except String Unit × Config × List Effect :=
  match conf.Client with
  | some cl => runClear env conf cl sourceRange
  | none =>
      match env.auth conf.GoogleCredentials with
      | Except.error e => (Except.error e, conf, [Effect.auth])
      | Except.ok cl =>
          let r := runClear env { conf with Client := some cl } cl sourceRange
          (r.1, r.2.1, Effect.auth :: r.2.2)

/-- A concrete well-behaved environment used to instantiate theorems:
authentication yields client 7, updates answer with status 200, reads
answer with an empty value array, clears succeed. -/
def env0 : Env where
  auth := fun _ => Except.ok 7
  update := fun _ _ _ _ _ => Except.ok ⟨200⟩
  getValues := fun _ _ _ => Except.ok []
  clearValues := fun _ _ _ => Except.ok ()

/-- A concrete environment whose update call answers with HTTP 404 and
whose read yields one row. -/
def env404 : Env where
  auth := fun _ => Except.ok 7
  update := fun _ _ _ _ _ => Except.ok ⟨404⟩
  getValues := fun _ _ _ => Except.ok [[Value.str "x"]]
  clearValues := fun _ _ _ => Except.ok ()

/-- A concrete configuration holding an already-authenticated client. -/
def conf1 : Config where
  GoogleCredentials := [1, 2, 3]
  SpreadsheetID := "sid"
  Client := some 5

/-- A concrete configuration with no client yet. -/
def conf0 : Config where
  GoogleCredentials := [1, 2, 3]
  SpreadsheetID := "sid"
  Client := none

/-- C6: for every configuration, both write operations given zero rows,
or a first row with zero columns/keys, return success without issuing
any external call (no update and no authentication) and leave the
configuration unchanged. -/
theorem write_empty_data_noop (env : Env) (conf : Config) (sheet : String) (r c : Int) :
    DataArrayToGoogleSpreadSheet env conf sheet r c [] = (Except.ok (), conf, []) ∧
    (∀ rest : List (List Value),
      DataArrayToGoogleSpreadSheet env conf sheet r c ([] :: rest) = (Except.ok (), conf, [])) ∧
    DataMapToGoogleSpreadsheet env conf sheet r c [] = (Except.ok (), conf, []) ∧
    (∀ rest : List MapRow,
      DataMapToGoogleSpreadsheet env conf sheet r c ([] :: rest) = (Except.ok (), conf, [])) := by
  refine ⟨?_, fun rest => ?_, ?_, fun rest => ?_⟩ <;>
    simp [DataArrayToGoogleSpreadSheet, DataMapToGoogleSpreadsheet]

/-- C3: with a client present, the write operation issues its update
call on exactly the range `sheet + "!" + ColAddress(destCol) + destRow +
":" + ColAddress(destCol + nbCols) + (destRow + nbRows)`; in particular
for sheet "Sheet1", start row 2, start column 2, 3 rows and 2 columns
the end address comes from column 4 and row 5, giving "Sheet1!B2:D5". -/
theorem writeArray_range_construction (env : Env) (conf : Config) (cl : Nat)
    (sheet : String) (r c : Int) (x : Value) (xs : List Value) (rows : List (List Value))
    (hcl : conf.Client = some cl) :
    (DataArrayToGoogleSpreadSheet env conf sheet r c ((x :: xs) :: rows)).2.2 =
      [Effect.update conf.SpreadsheetID
        (sheet ++ "!" ++ ColAddress c ++ toString r ++ ":" ++
          ColAddress (c + ((xs.length + 1 : Nat) : Int)) ++
          toString (r + ((rows.length + 1 : Nat) : Int)))
        "USER_ENTERED" ((x :: xs) :: rows)] ∧
    buildRange "Sheet1" 2 2 3 2 =
      "Sheet1" ++ "!" ++ ColAddress 2 ++ toString (2 : Int) ++ ":" ++
        ColAddress 4 ++ toString (5 : Int) ∧
    buildRange "Sheet1" 2 2 3 2 = "Sheet1!B2:D5" := by
  refine ⟨?_, by decide, by decide⟩
  simp only [DataArrayToGoogleSpreadSheet, List.length_cons, List.headD_cons, hcl]
  have hguard : ¬(rows.length + 1 = 0) := by omega
  rw [if_neg hguard, if_neg (by omega)]
  simp only [runUpdate, buildRange, List.length_cons]
  cases henv : env.update cl conf.SpreadsheetID
      (sheet ++ "!" ++ ColAddress c ++ toString r ++ ":" ++
        ColAddress (c + ((xs.length + 1 : Nat) : Int)) ++
        toString (r + ((rows.length + 1 : Nat) : Int)))
      "USER_ENTERED" ((x :: xs) :: rows) with
  | error e => rfl
  | ok resp =>
      dsimp only
      by_cases hcode : resp.HTTPStatusCode < 200 ∨ 299 < resp.HTTPStatusCode
      · rw [if_pos hcode]
      · rw [if_neg hcode]

/-- C7: a read whose service call succeeds with zero rows returns the
error `Empty template` and no array, while a result with at least one
row is returned unchanged with no error; this holds both with a cached
client and after a fresh successful authentication. -/
theorem read_empty_result_error (env : Env) (conf : Config) (cl : Nat) (rng : String) :
    (conf.Client = some cl →
      (env.getValues cl conf.SpreadsheetID rng = Except.ok [] →
        GoogleSpreadsheetToDataArray env conf rng =
          (Except.error "Empty template", conf, [Effect.getValues conf.SpreadsheetID rng])) ∧
      (∀ (v : List Value) (vs : List (List Value)),
        env.getValues cl conf.SpreadsheetID rng = Except.ok (v :: vs) →
        GoogleSpreadsheetToDataArray env conf rng =
          (Except.ok (v :: vs), conf, [Effect.getValues conf.SpreadsheetID rng]))) ∧
    (conf.Client = none → env.auth conf.GoogleCredentials = Except.ok cl →
      (env.getValues cl conf.SpreadsheetID rng = Except.ok [] →
        GoogleSpreadsheetToDataArray env conf rng =
          (Except.error "Empty template", { conf with Client := some cl },
            [Effect.auth, Effect.getValues conf.SpreadsheetID rng])) ∧
      (∀ (v : List Value) (vs : List (List Value)),
        env.getValues cl conf.SpreadsheetID rng = Except.ok (v :: vs) →
        GoogleSpreadsheetToDataArray env conf rng =
          (Except.ok (v :: vs), { conf with Client := some cl },
            [Effect.auth, Effect.getValues conf.SpreadsheetID rng]))) := by
  constructor
  · intro hcl
    constructor
    · intro hget
      simp [GoogleSpreadsheetToDataArray, hcl, runGet, hget]
    · intro v vs hget
      simp [GoogleSpreadsheetToDataArray, hcl, runGet, hget]
  · intro hcl hauth
    constructor
    · intro hget
      simp [GoogleSpreadsheetToDataArray, hcl, hauth, runGet, hget]
    · intro v vs hget
      simp [GoogleSpreadsheetToDataArray, hcl, hauth, runGet, hget]

/-- Witness for C7: `env0` reads back zero rows, `env404` reads back one
row, both against the authenticated configuration `conf1`. -/
theorem read_empty_result_error_witness :
    GoogleSpreadsheetToDataArray env0 conf1 "Sheet1!A1:B2" =
      (Except.error "Empty template", conf1,
        [Effect.getValues conf1.SpreadsheetID "Sheet1!A1:B2"]) ∧
    GoogleSpreadsheetToDataArray env404 conf1 "Sheet1!A1:B2" =
      (Except.ok [[Value.str "x"]], conf1,
        [Effect.getValues conf1.SpreadsheetID "Sheet1!A1:B2"]) :=
  ⟨((read_empty_result_error env0 conf1 5 "Sheet1!A1:B2").1 rfl).1 rfl,
   ((read_empty_result_error env404 conf1 5 "Sheet1!A1:B2").1 rfl).2 [Value.str "x"] [] rfl⟩

/-- C8: if the update call completes without a transport error, a
response status outside [200, 299] makes the write fail with an error
message containing the status code, and a status inside [200, 299]
makes it return success. -/
theorem writeArray_http_status_check (env : Env) (conf : Config) (cl : Nat)
    (sheet : String) (r c : Int) (x : Value) (xs : List Value) (rows : List (List Value))
    (code : Int)
    (hcl : conf.Client = some cl)
    (hup : env.update cl conf.SpreadsheetID
      (buildRange sheet r c (rows.length + 1) (xs.length + 1)) "USER_ENTERED"
      ((x :: xs) :: rows) = Except.ok ⟨code⟩) :
    ((code < 200 ∨ 299 < code) →
      (DataArrayToGoogleSpreadSheet env conf sheet r c ((x :: xs) :: rows)).1 =
        Except.error ("Wrong http return code " ++ toString code ++ " ") ∧
      ∃ pre post, "Wrong http return code " ++ toString code ++ " " =
        pre ++ toString code ++ post) ∧
    (200 ≤ code → code ≤ 299 →
      (DataArrayToGoogleSpreadSheet env conf sheet r c ((x :: xs) :: rows)).1 =
        Except.ok ()) := by
  have hrun : DataArrayToGoogleSpreadSheet env conf sheet r c ((x :: xs) :: rows) =
      runUpdate env conf cl
        (buildRange sheet r c (rows.length + 1) (xs.length + 1)) ((x :: xs) :: rows) := by
    simp only [DataArrayToGoogleSpreadSheet, List.length_cons, List.headD_cons, hcl]
    rw [if_neg (by omega), if_neg (by omega)]
  constructor
  · intro hcode
    refine ⟨?_, "Wrong http return code ", " ", rfl⟩
    rw [hrun]
    simp only [runUpdate, hup]
    rw [if_pos hcode]
  · intro h1 h2
    rw [hrun]
    simp only [runUpdate, hup]
    rw [if_neg (by omega)]

/-- Witness for C8: `env404` answers 404 and the write fails with the
status in the message; `env0` answers 200 and the write succeeds. -/
theorem writeArray_http_status_check_witness :
    (DataArrayToGoogleSpreadSheet env404 conf1 "S" 1 1 [[Value.int 1]]).1 =
      Except.error ("Wrong http return code " ++ toString (404 : Int) ++ " ") ∧
    (DataArrayToGoogleSpreadSheet env0 conf1 "S" 1 1 [[Value.int 1]]).1 =
      Except.ok () :=
  ⟨((writeArray_http_status_check env404 conf1 5 "S" 1 1 (Value.int 1) [] [] 404
      rfl rfl).1 (by decide)).1,
   (writeArray_http_status_check env0 conf1 5 "S" 1 1 (Value.int 1) [] [] 200
      rfl rfl).2 (by decide) (by decide)⟩

/-- The C9 invariant relating the configuration before an operation to
the configuration after it and the trace of calls: credentials and
spreadsheet id never change; with a client already present nothing
changes and no authentication happens; the client field either stays
what it was or goes from absent to present. -/
def OnlyClientSet (conf conf2 : Config) (effs : List Effect) : Prop :=
  conf2.GoogleCredentials = conf.GoogleCredentials ∧
  conf2.SpreadsheetID = conf.SpreadsheetID ∧
  (∀ cl, conf.Client = some cl → conf2 = conf ∧ Effect.auth ∉ effs) ∧
  (conf2.Client = conf.Client ∨ (conf.Client = none ∧ ∃ c, conf2.Client = some c))

lemma runUpdate_conf (env : Env) (conf : Config) (cl : Nat) (rng : String)
    (data : List (List Value)) :
    (runUpdate env conf cl rng data).2.1 = conf ∧
    Effect.auth ∉ (runUpdate env conf cl rng data).2.2 := by
  unfold runUpdate
  cases env.update cl conf.SpreadsheetID rng "USER_ENTERED" data with
  | error e => simp
  | ok resp =>
      dsimp only
      split <;> simp

lemma runGet_conf (env : Env) (conf : Config) (cl : Nat) (rng : String) :
    (runGet env conf cl rng).2.1 = conf ∧
    Effect.auth ∉ (runGet env conf cl rng).2.2 := by
  unfold runGet
  cases env.getValues cl conf.SpreadsheetID rng with
  | error e => simp
  | ok vals =>
      dsimp only
      split <;> simp

lemma runClear_conf (env : Env) (conf : Config) (cl : Nat) (rng : String) :
    (runClear env conf cl rng).2.1 = conf ∧
    Effect.auth ∉ (runClear env conf cl rng).2.2 := by
  unfold runClear
  cases env.clearValues cl conf.SpreadsheetID rng with
  | error e => simp
  | ok u => simp

lemma onlyClientSet_refl (conf : Config) : OnlyClientSet conf conf [] :=
  ⟨rfl, rfl, fun _ _ => ⟨rfl, by simp⟩, Or.inl rfl⟩

lemma dataArray_onlyClientSet (env : Env) (conf : Config) (sheet : String)
    (r c : Int) (data : List (List Value)) :
    OnlyClientSet conf (DataArrayToGoogleSpreadSheet env conf sheet r c data).2.1
      (DataArrayToGoogleSpreadSheet env conf sheet r c data).2.2 := by
  unfold DataArrayToGoogleSpreadSheet
  by_cases h0 : data.length = 0
  · rw [if_pos h0]; exact onlyClientSet_refl conf
  rw [if_neg h0]
  by_cases h1 : (data.headD []).length = 0
  · rw [if_pos h1]; exact onlyClientSet_refl conf
  rw [if_neg h1]
  dsimp only
  cases hc : conf.Client with
  | some cl =>
      dsimp only
      have hr := runUpdate_conf env conf cl
        (buildRange sheet r c data.length (data.headD []).length) data
      exact ⟨by rw [hr.1], by rw [hr.1], fun cl2 _ => ⟨hr.1, hr.2⟩,
        Or.inl (by rw [hr.1])⟩
  | none =>
      dsimp only
      cases ha : env.auth conf.GoogleCredentials with
      | error e =>
          refine ⟨rfl, rfl, ?_, Or.inl rfl⟩
          intro cl2 hcl2
          rw [hc] at hcl2
          exact Option.noConfusion hcl2
      | ok cl =>
          dsimp only
          have hr := runUpdate_conf env { conf with Client := some cl } cl
            (buildRange sheet r c data.length (data.headD []).length) data
          refine ⟨by rw [hr.1], by rw [hr.1], ?_, Or.inr ⟨hc, cl, by rw [hr.1]⟩⟩
          intro cl2 hcl2
          rw [hc] at hcl2
          exact Option.noConfusion hcl2

lemma dataMap_onlyClientSet (env : Env) (conf : Config) (sheet : String)
    (r c : Int) (data : List MapRow) :
    OnlyClientSet conf (DataMapToGoogleSpreadsheet env conf sheet r c data).2.1
      (DataMapToGoogleSpreadsheet env conf sheet r c data).2.2 := by
  unfold DataMapToGoogleSpreadsheet
  by_cases h0 : data.length = 0
  · rw [if_pos h0]; exact onlyClientSet_refl conf
  rw [if_neg h0]
  by_cases h1 : (data.headD []).length = 0
  · rw [if_pos h1]; exact onlyClientSet_refl conf
  rw [if_neg h1]
  exact dataArray_onlyClientSet env conf sheet r c (valueDataOf data)

lemma read_onlyClientSet (env : Env) (conf : Config) (rng : String) :
    OnlyClientSet conf (GoogleSpreadsheetToDataArray env conf rng).2.1
      (GoogleSpreadsheetToDataArray env conf rng).2.2 := by
  unfold GoogleSpreadsheetToDataArray
  cases hc : conf.Client with
  | some cl =>
      dsimp only
      have hr := runGet_conf env conf cl rng
      exact ⟨by rw [hr.1], by rw [hr.1], fun cl2 _ => ⟨hr.1, hr.2⟩,
        Or.inl (by rw [hr.1])⟩
  | none =>
      dsimp only
      cases ha : env.auth conf.GoogleCredentials with
      | error e =>
          refine ⟨rfl, rfl, ?_, Or.inl rfl⟩
          intro cl2 hcl2
          rw [hc] at hcl2
          exact Option.noConfusion hcl2
      | ok cl =>
          dsimp only
          have hr := runGet_conf env { conf with Client := some cl } cl rng
          refine ⟨by rw [hr.1], by rw [hr.1], ?_, Or.inr ⟨hc, cl, by rw [hr.1]⟩⟩
          intro cl2 hcl2
          rw [hc] at hcl2
          exact Option.noConfusion hcl2

lemma clearRange_onlyClientSet (env : Env) (conf : Config) (rng : String) :
    OnlyClientSet conf (ClearRange env conf rng).2.1 (ClearRange env conf rng).2.2 := by
  unfold ClearRange
  cases hc : conf.Client with
  | some cl =>
      dsimp only
      have hr := runClear_conf env conf cl rng
      exact ⟨by rw [hr.1], by rw [hr.1], fun cl2 _ => ⟨hr.1, hr.2⟩,
        Or.inl (by rw [hr.1])⟩
  | none =>
      dsimp only
      cases ha : env.auth conf.GoogleCredentials with
      | error e =>
          refine ⟨rfl, rfl, ?_, Or.inl rfl⟩
          intro cl2 hcl2
          rw [hc] at hcl2
          exact Option.noConfusion hcl2
      | ok cl =>
          dsimp only
          have hr := runClear_conf env { conf with Client := some cl } cl rng
          refine ⟨by rw [hr.1], by rw [hr.1], ?_, Or.inr ⟨hc, cl, by rw [hr.1]⟩⟩
          intro cl2 hcl2
          rw [hc] at hcl2
          exact Option.noConfusion hcl2

lemma clearSheet_onlyClientSet (env : Env) (conf : Config) (rng : String) :
    OnlyClientSet conf (ClearSheet env conf rng).2.1 (ClearSheet env conf rng).2.2 := by
  unfold ClearSheet
  cases hc : conf.Client with
  | some cl =>
      dsimp only
      have hr := runClear_conf env conf cl rng
      exact ⟨by rw [hr.1], by rw [hr.1], fun cl2 _ => ⟨hr.1, hr.2⟩,
        Or.inl (by rw [hr.1])⟩
  | none =>
      dsimp only
      cases ha : env.auth conf.GoogleCredentials with
      | error e =>
          refine ⟨rfl, rfl, ?_, Or.inl rfl⟩
          intro cl2 hcl2
          rw [hc] at hcl2
          exact Option.noConfusion hcl2
      | ok cl =>
          dsimp only
          have hr := runClear_conf env { conf with Client := some cl } cl rng
          refine ⟨by rw [hr.1], by rw [hr.1], ?_, Or.inr ⟨hc, cl, by rw [hr.1]⟩⟩
          intro cl2 hcl2
          rw [hc] at hcl2
          exact Option.noConfusion hcl2

/-- C9: every operation preserves the credential bytes and the
spreadsheet id; with a client already cached no operation touches the
configuration or authenticates again; and the only mutation ever
performed is setting the client field from absent to present. -/
theorem operations_mutate_only_client (env : Env) (conf : Config) :
    (∀ sheet r c data, OnlyClientSet conf
      (DataArrayToGoogleSpreadSheet env conf sheet r c data).2.1
      (DataArrayToGoogleSpreadSheet env conf sheet r c data).2.2) ∧
    (∀ sheet r c data, OnlyClientSet conf
      (DataMapToGoogleSpreadsheet env conf sheet r c data).2.1
      (DataMapToGoogleSpreadsheet env conf sheet r c data).2.2) ∧
    (∀ rng, OnlyClientSet conf
      (GoogleSpreadsheetToDataArray env conf rng).2.1
      (GoogleSpreadsheetToDataArray env conf rng).2.2) ∧
    (∀ rng, OnlyClientSet conf
      (ClearRange env conf rng).2.1 (ClearRange env conf rng).2.2) ∧
    (∀ rng, OnlyClientSet conf
      (ClearSheet env conf rng).2.1 (ClearSheet env conf rng).2.2) :=
  ⟨fun sheet r c data => dataArray_onlyClientSet env conf sheet r c data,
   fun sheet r c data => dataMap_onlyClientSet env conf sheet r c data,
   fun rng => read_onlyClientSet env conf rng,
   fun rng => clearRange_onlyClientSet env conf rng,
   fun rng => clearSheet_onlyClientSet env conf rng⟩

/-- C4: for a non-empty sequence of map rows whose first row has at
least one key, the shaped output starts with a header row that is
exactly the first row's keys sorted lexicographically ascending, and
continues with one row per input map holding the string-coerced value of
each key in that column order; in particular shaping a single row with
keys "b" and "a" yields header ["a", "b"] and data ["2", "1"]. -/
theorem shapeMapRows_sorted_header (first : MapRow) (rest : List MapRow)
    (_hne : first ≠ []) :
    (∃ ks : List String,
      valueDataOf (first :: rest) =
        ks.map Value.str ::
          (first :: rest).map (fun rowvalue =>
            ks.map (fun k => Value.str (scanNullString (rowvalue.lookup k)))) ∧
      List.Perm ks (first.map Prod.fst) ∧
      List.Sorted (· ≤ ·) ks) ∧
    valueDataOf [[("b", Value.int 1), ("a", Value.int 2)]] =
      [[Value.str "a", Value.str "b"], [Value.str "2", Value.str "1"]] := by
  refine ⟨⟨sortStrings (first.map Prod.fst), rfl, ?_, ?_⟩, by decide⟩
  · exact @List.perm_insertionSort String (· ≤ ·) (fun a b => decLEString a b)
      (first.map Prod.fst)
  · exact @List.sorted_insertionSort String (· ≤ ·) (fun a b => decLEString a b)
      inferInstance inferInstance (first.map Prod.fst)

/-- Witness for C4 on the single-row input with keys "b" and "a". -/
theorem shapeMapRows_sorted_header_witness :
    valueDataOf [[("b", Value.int 1), ("a", Value.int 2)]] =
      [[Value.str "a", Value.str "b"], [Value.str "2", Value.str "1"]] :=
  (shapeMapRows_sorted_header [("b", Value.int 1), ("a", Value.int 2)] []
    (by decide)).2

lemma valueDataOf_cell (first : MapRow) (rest : List MapRow) (i c : Nat)
    (hi : i < rest.length) (hc : c < (sortStrings (first.map Prod.fst)).length) :
    (((valueDataOf (first :: rest))[i + 2]?).getD [])[c]? =
      some (Value.str (scanNullString
        ((rest.get ⟨i, hi⟩).lookup ((sortStrings (first.map Prod.fst)).get ⟨c, hc⟩)))) := by
  have h2 : i + 2 = (i + 1) + 1 := rfl
  have h1 : valueDataOf (first :: rest) =
      (sortStrings (first.map Prod.fst)).map Value.str ::
        (first :: rest).map (fun rowvalue =>
          (sortStrings (first.map Prod.fst)).map
            (fun k => Value.str (scanNullString (rowvalue.lookup k)))) := rfl
  rw [h1, h2, List.getElem?_cons_succ, List.getElem?_map, List.getElem?_cons_succ,
    List.getElem?_eq_getElem hi]
  simp only [Option.map_some', Option.getD_some, List.getElem?_map,
    List.getElem?_eq_getElem hc, List.get_eq_getElem]

/-- C5: in the shaped output of the map-based write, a row after the
first that is missing one of the first row's (sorted) keys, or that
holds a nil value for it, yields the empty-string cell in the
corresponding column; the cell always exists (absent and null values
never cause a failure). -/
theorem shapeMapRows_missing_key_empty (first : MapRow) (rest : List MapRow)
    (i c : Nat) (hi : i < rest.length)
    (hc : c < (sortStrings (first.map Prod.fst)).length) :
    ((rest.get ⟨i, hi⟩).lookup ((sortStrings (first.map Prod.fst)).get ⟨c, hc⟩) = none →
      (((valueDataOf (first :: rest))[i + 2]?).getD [])[c]? = some (Value.str "")) ∧
    ((rest.get ⟨i, hi⟩).lookup ((sortStrings (first.map Prod.fst)).get ⟨c, hc⟩) =
        some Value.null →
      (((valueDataOf (first :: rest))[i + 2]?).getD [])[c]? = some (Value.str "")) := by
  constructor
  · intro hlook
    rw [valueDataOf_cell first rest i c hi hc, hlook]
    rfl
  · intro hlook
    rw [valueDataOf_cell first rest i c hi hc, hlook]
    rfl

/-- Witness for C5: the second row misses key "b" and holds a nil value
for key "a"; both cells come out as the empty string. -/
theorem shapeMapRows_missing_key_empty_witness :
    (((valueDataOf [[("a", Value.int 1), ("b", Value.int 2)],
        [("a", Value.null)]])[0 + 2]?).getD [])[1]? = some (Value.str "") ∧
    (((valueDataOf [[("a", Value.int 1), ("b", Value.int 2)],
        [("a", Value.null)]])[0 + 2]?).getD [])[0]? = some (Value.str "") :=
  ⟨(shapeMapRows_missing_key_empty [("a", Value.int 1), ("b", Value.int 2)]
      [[("a", Value.null)]] 0 1 (by decide) (by decide)).1 (by decide),
   (shapeMapRows_missing_key_empty [("a", Value.int 1), ("b", Value.int 2)]
      [[("a", Value.null)]] 0 0 (by decide) (by decide)).2 (by decide)⟩

/-- Witness for C9: with a client already cached, a write leaves the
configuration unchanged and never authenticates. -/
theorem operations_mutate_only_client_witness :
    (DataArrayToGoogleSpreadSheet env0 conf1 "S" 1 1 [[Value.int 1]]).2.1 = conf1 ∧
    Effect.auth ∉ (DataArrayToGoogleSpreadSheet env0 conf1 "S" 1 1 [[Value.int 1]]).2.2 :=
  ((operations_mutate_only_client env0 conf1).1 "S" 1 1 [[Value.int 1]]).2.2.1 5 rfl

/-- Witness for C3 with the concrete environment `env0`, the
authenticated configuration `conf1` and a one-cell data array. -/
theorem writeArray_range_construction_witness :
    (DataArrayToGoogleSpreadSheet env0 conf1 "Sheet1" 2 2 [[Value.int 1]]).2.2 =
      [Effect.update conf1.SpreadsheetID
        ("Sheet1" ++ "!" ++ ColAddress 2 ++ toString (2 : Int) ++ ":" ++
          ColAddress (2 + ((List.length ([] : List Value) + 1 : Nat) : Int)) ++
          toString (2 + ((List.length ([] : List (List Value)) + 1 : Nat) : Int)))
        "USER_ENTERED" [[Value.int 1]]] ∧
    buildRange "Sheet1" 2 2 3 2 = "Sheet1!B2:D5" :=
  ⟨(writeArray_range_construction env0 conf1 5 "Sheet1" 2 2 (Value.int 1) [] [] rfl).1,
   (writeArray_range_construction env0 conf1 5 "Sheet1" 2 2 (Value.int 1) [] [] rfl).2.2⟩
